import Mathlib

/-!
Verification development for the GPT-2 style model definition in
src/train_gpt2.py.  The source defines a configuration record, a causal
self-attention module, a feed-forward module, a transformer block, and a
top-level model; everything is embedded shallowly below.  Tensors are
modelled as explicit-dimension structures over exact rationals, with the
external tensor-library primitives (exp inside softmax, sqrt, the two
GELU variants) supplied as an abstract operations record, since the
source treats them as an external numeric interface.
-/

set_option maxHeartbeats 1000000

/-- Interface of the external tensor-library primitives the source calls:
exp is the exponential softmax is built from, sqrt the square root used by
the attention scale and by layer normalization, gelu the exact erf-based
Gaussian Error Linear Unit (what nn.GELU with approximate set to none
denotes), and geluTanh its tanh approximation. -/
structure TorchOps where
  exp : ℚ → ℚ
  sqrt : ℚ → ℚ
  gelu : ℚ → ℚ
  geluTanh : ℚ → ℚ

/-- A three-dimensional tensor: explicit dimensions plus a total data
function; entries outside the dimensions are irrelevant padding. -/
structure Tensor3 where
  d0 : ℕ
  d1 : ℕ
  d2 : ℕ
  data : ℕ → ℕ → ℕ → ℚ

/-- Elementwise addition of two tensors of the same shape (the residual
additions in Block.forward). -/
def addT3 (x y : Tensor3) : Tensor3 :=
  ⟨x.d0, x.d1, x.d2, fun b t c => x.data b t c + y.data b t c⟩

/-- A torch linear layer: weight of shape (out_features, in_features),
optional additive bias, applied to the last axis as x Wᵀ + b. -/
structure Linear where
  in_features : ℕ
  out_features : ℕ
  weight : ℕ → ℕ → ℚ
  bias : ℕ → ℚ
  hasBias : Bool

/-- Apply a linear layer to one vector along the feature axis. -/
def Linear.app1 (l : Linear) (x : ℕ → ℚ) : ℕ → ℚ :=
  fun o =>
    (∑ i ∈ Finset.range l.in_features, l.weight o i * x i) +
      (if l.hasBias then l.bias o else 0)

/-- A linear layer applied to a (B, T, C) tensor acts on the last axis. -/
def Linear.app3 (l : Linear) (x : Tensor3) : Tensor3 :=
  ⟨x.d0, x.d1, l.out_features, fun b t => l.app1 (x.data b t)⟩

/-- A torch embedding table: num rows of dim-wide learned vectors. -/
structure Embedding where
  num : ℕ
  dim : ℕ
  weight : ℕ → ℕ → ℚ

/-- A torch layer-normalization module over the last axis of width dim,
with learned scale and shift. -/
structure LayerNorm where
  dim : ℕ
  weight : ℕ → ℚ
  bias : ℕ → ℚ

/-- Layer normalization of one vector: subtract the mean, divide by the
square root of the (biased) variance plus the default epsilon 1e-5, then
scale and shift. -/
def LayerNorm.app1 (ops : TorchOps) (ln : LayerNorm) (x : ℕ → ℚ) : ℕ → ℚ :=
  let mu := (∑ j ∈ Finset.range ln.dim, x j) / (ln.dim : ℚ)
  let var := (∑ j ∈ Finset.range ln.dim, (x j - mu) ^ 2) / (ln.dim : ℚ)
  fun i => (x i - mu) / ops.sqrt (var + 1 / 100000) * ln.weight i + ln.bias i

/-- Layer normalization applied to a (B, T, C) tensor acts per position. -/
def ln3 (ops : TorchOps) (ln : LayerNorm) (x : Tensor3) : Tensor3 :=
  ⟨x.d0, x.d1, x.d2, fun b t => LayerNorm.app1 ops ln (x.data b t)⟩

/-- The configuration record GPTConfig with its source defaults. -/
structure GPTConfig where
  block_size : ℕ := 256
  vocab_size : ℕ := 65
  n_layer : ℕ := 6
  n_head : ℕ := 6
  n_embd : ℕ := 384

/-- Failure conditions of the embedded program: the failed construction
assert (InvalidConfiguration in the spec), the unbound-name read in the
attention forward, an embedding-table lookup with an index outside the
table, and the SequenceTooLong condition the spec names but the reference
never raises. -/
inductive Err where
  | invalidConfiguration : Err
  | nameError : Err
  | indexOutOfRange : Err
  | sequenceTooLong : Err
deriving DecidableEq

/-- Learned parameters fed to CausalSelfAttention.__init__: the combined
qkv projection c_attn and the output projection c_proj. -/
structure AttnParams where
  c_attn_w : ℕ → ℕ → ℚ
  c_attn_b : ℕ → ℚ
  c_proj_w : ℕ → ℕ → ℚ
  c_proj_b : ℕ → ℚ

/-- The causal self-attention module state: the combined qkv projection,
the output projection, the head count and width copies, and the fixed
lower-triangular mask buffer the source registers under the name bias
(biasLen records its side length block_size; it is viewed as
(1, 1, block_size, block_size)). -/
structure CausalSelfAttention where
  c_attn : Linear
  c_proj : Linear
  n_head : ℕ
  n_embd : ℕ
  biasLen : ℕ
  bias : ℕ → ℕ → ℚ

/-- The module state CausalSelfAttention.__init__ builds when its assert
passes: c_attn maps n_embd to 3 * n_embd, c_proj maps n_embd to n_embd,
and bias is torch.tril of an all-ones (block_size, block_size) matrix:
entry (i, j) is 1 for j ≤ i and 0 above the diagonal. -/
def mkCausalSelfAttention (config : GPTConfig) (p : AttnParams) :
    CausalSelfAttention :=
  { c_attn := ⟨config.n_embd, 3 * config.n_embd, p.c_attn_w, p.c_attn_b, true⟩,
    c_proj := ⟨config.n_embd, config.n_embd, p.c_proj_w, p.c_proj_b, true⟩,
    n_head := config.n_head,
    n_embd := config.n_embd,
    biasLen := config.block_size,
    bias := fun i j => if j ≤ i then 1 else 0 }

/-- CausalSelfAttention.__init__ (lines 8-20): the assert that n_embd is
divisible by n_head is the InvalidConfiguration condition of the spec;
construction succeeds otherwise. -/
def CausalSelfAttention.init (config : GPTConfig) (p : AttnParams) :
    Except Err CausalSelfAttention :=
  if config.n_embd % config.n_head = 0 then
    Except.ok (mkCausalSelfAttention config p)
  else
    Except.error Err.invalidConfiguration

/-- Line 27: qkv = self.c_attn(x), a (B, T, 3C) tensor. -/
def qkvOf (m : CausalSelfAttention) (x : Tensor3) : Tensor3 :=
  m.c_attn.app3 x

/-- Line 28, first chunk of qkv.split(self.n_embd, dim=2): the query. -/
def qOf (m : CausalSelfAttention) (x : Tensor3) : ℕ → ℕ → ℕ → ℚ :=
  fun b t i => (qkvOf m x).data b t i

/-- Line 28, second chunk of the split: the key. -/
def kOf (m : CausalSelfAttention) (x : Tensor3) : ℕ → ℕ → ℕ → ℚ :=
  fun b t i => (qkvOf m x).data b t (m.n_embd + i)

/-- Line 28, third chunk of the split; the source binds it to the name c
(the intended value tensor). -/
def cOf (m : CausalSelfAttention) (x : Tensor3) : ℕ → ℕ → ℕ → ℚ :=
  fun b t i => (qkvOf m x).data b t (2 * m.n_embd + i)

/-- view(B, T, n_head, hs).transpose(1, 2): read a (B, T, C) slice as
(B, n_head, T, hs), entry (b, h, t, s) coming from channel h * hs + s. -/
def headView (hs : ℕ) (u : ℕ → ℕ → ℕ → ℚ) : ℕ → ℕ → ℕ → ℕ → ℚ :=
  fun b h t s => u b t (h * hs + s)

/-- Line 33: att = (q @ k.transpose(-2, -1)) * (1.0 / math.sqrt(k.size(-1)));
after the view, k.size(-1) is the head size C // n_head with C = x.d2. -/
def attOf (ops : TorchOps) (m : CausalSelfAttention) (x : Tensor3) :
    ℕ → ℕ → ℕ → ℕ → ℚ :=
  fun b h i j =>
    (∑ s ∈ Finset.range (x.d2 / m.n_head),
        headView (x.d2 / m.n_head) (qOf m x) b h i s *
          headView (x.d2 / m.n_head) (kOf m x) b h j s) *
      (1 / ops.sqrt ((x.d2 / m.n_head : ℕ) : ℚ))

/-- One attention score after line 34's masked_fill: either a rational or
the negative infinity the fill writes over future positions. -/
inductive MScore where
  | val : ℚ → MScore
  | negInf : MScore
deriving DecidableEq

/-- Line 34: att.masked_fill(self.bias[:, :, :T, :T] == 0, float(-inf)):
scores whose mask entry is zero become negative infinity. -/
def maskedOf (ops : TorchOps) (m : CausalSelfAttention) (x : Tensor3) :
    ℕ → ℕ → ℕ → ℕ → MScore :=
  fun b h i j =>
    if m.bias i j = 0 then MScore.negInf
    else MScore.val (attOf ops m x b h i j)

/-- Exponential extended to negative infinity: exp of negative infinity
is exactly zero, which is how softmax assigns masked positions zero
weight. -/
def mexp (ops : TorchOps) : MScore → ℚ
  | MScore.val s => ops.exp s
  | MScore.negInf => 0

/-- Line 35: att = F.softmax(att, dim=-1), along the key axis of length
T = x.d1. -/
def wOf (ops : TorchOps) (m : CausalSelfAttention) (x : Tensor3) :
    ℕ → ℕ → ℕ → ℕ → ℚ :=
  fun b h i j =>
    mexp ops (maskedOf ops m x b h i j) /
      ∑ j' ∈ Finset.range x.d1, mexp ops (maskedOf ops m x b h i j')

/-- Lines 36-37: y = att @ v, then y.transpose(1, 2).contiguous().view(B, T, C):
channel c of the reassembled tensor is head c / hs, slot c % hs. -/
def yOf (ops : TorchOps) (m : CausalSelfAttention) (x : Tensor3)
    (v : ℕ → ℕ → ℕ → ℚ) : Tensor3 :=
  ⟨x.d0, x.d1, x.d2, fun b t c =>
    ∑ j ∈ Finset.range x.d1,
      wOf ops m x b (c / (x.d2 / m.n_head)) t j *
        headView (x.d2 / m.n_head) v b (c / (x.d2 / m.n_head)) j
          (c % (x.d2 / m.n_head))⟩

/-- CausalSelfAttention.forward with the naming slip the spec's design
notes identify repaired: the third chunk of the split is used as the
value tensor v.  Lines 29-40 are otherwise embedded as written; the
literal method is attnForwardLiteral. -/
def attnForward (ops : TorchOps) (m : CausalSelfAttention) (x : Tensor3) :
    Tensor3 :=
  m.c_proj.app3 (yOf ops m x (cOf m x))

/-- CausalSelfAttention.forward exactly as written (lines 22-40): q and k
are bound from the split, the third chunk is bound to the unused name c,
and line 31 (v = v.view(...)) reads the name v, which has no prior
binding - an unbound-name error in the source language, modelled as
Err.nameError.  The computation lines 33-40 would perform given a value
for v is the function under the map; it is never reached. -/
def attnForwardLiteral (ops : TorchOps) (m : CausalSelfAttention)
    (x : Tensor3) : Except Err Tensor3 :=
  (Except.error Err.nameError : Except Err (ℕ → ℕ → ℕ → ℚ)).map
    (fun v => m.c_proj.app3 (yOf ops m x v))

/-- Learned parameters fed to MLP.__init__. -/
structure MLPParams where
  c_fc_w : ℕ → ℕ → ℚ
  c_fc_b : ℕ → ℚ
  c_proj_w : ℕ → ℕ → ℚ
  c_proj_b : ℕ → ℚ

/-- The feed-forward module state: expansion projection, the nonlinearity
object chosen at construction (nn.GELU with approximate set to none, the
exact erf-based function), and the contraction projection. -/
structure MLP where
  c_fc : Linear
  geluF : ℚ → ℚ
  c_proj : Linear

/-- MLP.__init__ (lines 43-47): c_fc maps n_embd to 4 * n_embd, the
nonlinearity is the library's exact GELU, c_proj maps 4 * n_embd back to
n_embd. -/
def MLP.init (ops : TorchOps) (config : GPTConfig) (p : MLPParams) : MLP :=
  { c_fc := ⟨config.n_embd, 4 * config.n_embd, p.c_fc_w, p.c_fc_b, true⟩,
    geluF := ops.gelu,
    c_proj := ⟨4 * config.n_embd, config.n_embd, p.c_proj_w, p.c_proj_b, true⟩ }

/-- MLP.forward (lines 49-53): x = c_fc(x); x = gelu(x); x = c_proj(x). -/
def MLP.fwd (m : MLP) (x : Tensor3) : Tensor3 :=
  let x1 := m.c_fc.app3 x
  let x2 : Tensor3 := ⟨x1.d0, x1.d1, x1.d2, fun b t i => m.geluF (x1.data b t i)⟩
  m.c_proj.app3 x2

/-- Learned parameters fed to Block.__init__: the two independent
normalization layers, the attention parameters, and the feed-forward
parameters. -/
structure BlockParams where
  ln_1_w : ℕ → ℚ
  ln_1_b : ℕ → ℚ
  attn : AttnParams
  ln_2_w : ℕ → ℚ
  ln_2_b : ℕ → ℚ
  mlp : MLPParams

/-- The transformer block state (lines 55-61). -/
structure Block where
  ln_1 : LayerNorm
  attn : CausalSelfAttention
  ln_2 : LayerNorm
  mlp : MLP

/-- The Block state produced when attention construction succeeds. -/
def mkBlock (ops : TorchOps) (config : GPTConfig) (p : BlockParams) : Block :=
  { ln_1 := ⟨config.n_embd, p.ln_1_w, p.ln_1_b⟩,
    attn := mkCausalSelfAttention config p.attn,
    ln_2 := ⟨config.n_embd, p.ln_2_w, p.ln_2_b⟩,
    mlp := MLP.init ops config p.mlp }

/-- Block.__init__ (lines 56-61): two independently parameterized
normalization layers, a causal self-attention module (whose construction
assert can fail), and a feed-forward module. -/
def Block.init (ops : TorchOps) (config : GPTConfig) (p : BlockParams) :
    Except Err Block :=
  (CausalSelfAttention.init config p.attn).map fun a =>
    { ln_1 := ⟨config.n_embd, p.ln_1_w, p.ln_1_b⟩,
      attn := a,
      ln_2 := ⟨config.n_embd, p.ln_2_w, p.ln_2_b⟩,
      mlp := MLP.init ops config p.mlp }

/-- Block.forward (lines 63-66): x = x + attn(ln_1(x)); then
x = x + mlp(ln_2(x)).  Uses the repaired attention forward; the literal
attention forward never returns (see attnForwardLiteral). -/
def Block.fwd (ops : TorchOps) (blk : Block) (x : Tensor3) : Tensor3 :=
  let x1 := addT3 x (attnForward ops blk.attn (ln3 ops blk.ln_1 x))
  addT3 x1 (MLP.fwd blk.mlp (ln3 ops blk.ln_2 x1))

/-- Learned parameters fed to the top-level constructor: the two embedding
tables, one BlockParams record per layer index (independent
parameterization), the final normalization, and the output projection
weight. -/
structure GPTParams where
  wte_w : ℕ → ℕ → ℚ
  wpe_w : ℕ → ℕ → ℚ
  blocks : ℕ → BlockParams
  ln_f_w : ℕ → ℚ
  ln_f_b : ℕ → ℚ
  lm_head_w : ℕ → ℕ → ℚ

/-- The top-level model state (lines 77-88): token and position embedding
tables, the ordered block stack h, the final normalization ln_f, and the
bias-free output projection lm_head. -/
structure GPT where
  config : GPTConfig
  wte : Embedding
  wpe : Embedding
  h : List Block
  ln_f : LayerNorm
  lm_head : Linear

/-- nn.ModuleList([Block(config) for _ in range(n_layer)]): blocks are
constructed in order 0, 1, ..., each from its own parameter record. -/
def initBlocks (ops : TorchOps) (config : GPTConfig) (pb : ℕ → BlockParams) :
    ℕ → Except Err (List Block)
  | 0 => Except.ok []
  | n + 1 =>
    match initBlocks ops config pb n, Block.init ops config (pb n) with
    | Except.ok rest, Except.ok blk => Except.ok (rest ++ [blk])
    | Except.error e, _ => Except.error e
    | _, Except.error e => Except.error e

/-- GPT.__init__ (lines 78-88): wte has vocab_size rows of width n_embd,
wpe has block_size rows of width n_embd, h holds n_layer blocks, ln_f is
the final normalization, and lm_head is a linear projection from n_embd
to vocab_size with bias=False. -/
def GPT.init (ops : TorchOps) (config : GPTConfig) (p : GPTParams) :
    Except Err GPT :=
  (initBlocks ops config p.blocks config.n_layer).map fun hs =>
    { config := config,
      wte := ⟨config.vocab_size, config.n_embd, p.wte_w⟩,
      wpe := ⟨config.block_size, config.n_embd, p.wpe_w⟩,
      h := hs,
      ln_f := ⟨config.n_embd, p.ln_f_w, p.ln_f_b⟩,
      lm_head := ⟨config.n_embd, config.vocab_size, p.lm_head_w, fun _ => 0, false⟩ }

/-- The GPT state produced when every block construction succeeds. -/
def mkGPT (ops : TorchOps) (config : GPTConfig) (p : GPTParams) : GPT :=
  { config := config,
    wte := ⟨config.vocab_size, config.n_embd, p.wte_w⟩,
    wpe := ⟨config.block_size, config.n_embd, p.wpe_w⟩,
    h := (List.range config.n_layer).map fun i => mkBlock ops config (p.blocks i),
    ln_f := ⟨config.n_embd, p.ln_f_w, p.ln_f_b⟩,
    lm_head := ⟨config.n_embd, config.vocab_size, p.lm_head_w, fun _ => 0, false⟩ }

/-- Modelled from the spec: step 1 of the top-level forward (the source's
GPT class has no forward method): the initial hidden state is the token
embedding of index idx[b, t] plus the position embedding of position t,
shape (B, T, n_embd). -/
def embedSum (g : GPT) (B T : ℕ) (idx : ℕ → ℕ → ℕ) : Tensor3 :=
  ⟨B, T, g.wte.dim, fun b t c => g.wte.weight (idx b t) c + g.wpe.weight t c⟩

/-- Modelled from the spec: the source's GPT class declares only its
constructor (lines 77-88), so the forward evaluation is taken from the
spec's words: look up token embeddings and position embeddings for
positions 0..T-1 and sum them, pass the hidden state through the blocks
in sequence order, apply the final normalization, and apply the bias-free
output projection to obtain logits.  Per the spec's design notes the
sequence-length bound is not an explicit check: it is enforced by the
embedding-table bounds, which fail with an out-of-range condition at
lookup time; a token index outside the vocabulary table fails the same
way. -/
def GPT.fwd (ops : TorchOps) (g : GPT) (B T : ℕ) (idx : ℕ → ℕ → ℕ) :
    Except Err Tensor3 :=
  if ∀ b < B, ∀ t < T, idx b t < g.wte.num then
    if ∀ t < T, t < g.wpe.num then
      Except.ok
        (g.lm_head.app3 (ln3 ops g.ln_f
          (g.h.foldl (fun acc blk => Block.fwd ops blk acc)
            (embedSum g B T idx))))
    else Except.error Err.indexOutOfRange
  else Except.error Err.indexOutOfRange

/-- Concrete stand-in for the external library operations, used for
concrete evaluations: exp and sqrt are the constant-one function, both
GELU variants the identity. -/
def opsW : TorchOps := ⟨fun _ => 1, fun _ => 1, fun q => q, fun q => q⟩

/-- Small concrete configuration: block_size 2, vocab_size 3, one layer,
one head, width 2. -/
def cfgW : GPTConfig := ⟨2, 3, 1, 1, 2⟩

/-- Concrete attention parameters. -/
def apW : AttnParams := ⟨fun _ _ => 1, fun _ => 0, fun _ _ => 1, fun _ => 0⟩

/-- Concrete attention module built from cfgW and apW. -/
def mW : CausalSelfAttention := mkCausalSelfAttention cfgW apW

/-- Concrete feed-forward parameters. -/
def mpW : MLPParams := ⟨fun _ _ => 1, fun _ => 0, fun _ _ => 1, fun _ => 0⟩

/-- Concrete block parameters. -/
def bpW : BlockParams := ⟨fun _ => 1, fun _ => 0, apW, fun _ => 1, fun _ => 0, mpW⟩

/-- Concrete top-level parameters. -/
def gpW : GPTParams :=
  ⟨fun _ _ => 0, fun _ _ => 0, fun _ => bpW, fun _ => 1, fun _ => 0, fun _ _ => 0⟩

/-- Concrete hidden-state input of shape (1, 2, 2). -/
def xW : Tensor3 := ⟨1, 2, 2, fun _ t _ => if t = 0 then 3 else 7⟩

/-- Concrete input agreeing with xW at position 0 and differing at
position 1. -/
def xW' : Tensor3 := ⟨1, 2, 2, fun _ t _ => if t = 0 then 3 else 9⟩

/-- The configuration of the spec's end-to-end testable property:
block_size 8, vocab_size 10, two layers, two heads, width 8. -/
def cfg5 : GPTConfig := ⟨8, 10, 2, 2, 8⟩

/-- Applying a linear layer to pointwise-equal vectors gives equal
results. -/
theorem Linear.app1_congr (l : Linear) (u w : ℕ → ℚ) (h : ∀ i, u i = w i) :
    l.app1 u = l.app1 w := by
  funext o
  unfold Linear.app1
  congr 1
  exact Finset.sum_congr rfl fun i _ => by rw [h i]

/-- Elimination for a successful attention construction: the module is
the mkCausalSelfAttention state and the divisibility assert held. -/
theorem attn_init_ok (config : GPTConfig) (p : AttnParams)
    (m : CausalSelfAttention)
    (h : CausalSelfAttention.init config p = Except.ok m) :
    m = mkCausalSelfAttention config p ∧
      config.n_embd % config.n_head = 0 := by
  unfold CausalSelfAttention.init at h
  by_cases hd : config.n_embd % config.n_head = 0
  · rw [if_pos hd] at h
    injection h with h2
    exact ⟨h2.symm, hd⟩
  · rw [if_neg hd] at h
    exact Except.noConfusion h

/-- When the divisibility assert holds, block construction succeeds with
the mkBlock state. -/
theorem block_init_mk (ops : TorchOps) (config : GPTConfig) (p : BlockParams)
    (hd : config.n_embd % config.n_head = 0) :
    Block.init ops config p = Except.ok (mkBlock ops config p) := by
  unfold Block.init CausalSelfAttention.init
  rw [if_pos hd]
  rfl

/-- When the divisibility assert holds, the block list is built in order
from each layer's own parameters. -/
theorem initBlocks_ok (ops : TorchOps) (config : GPTConfig)
    (pb : ℕ → BlockParams) (hd : config.n_embd % config.n_head = 0) (n : ℕ) :
    initBlocks ops config pb n =
      Except.ok ((List.range n).map fun i => mkBlock ops config (pb i)) := by
  induction n with
  | zero => rfl
  | succ k ih =>
    rw [initBlocks, ih, block_init_mk ops config (pb k) hd, List.range_succ,
      List.map_append]
    rfl

/-- When the divisibility assert holds, top-level construction succeeds
with the mkGPT state. -/
theorem gpt_init_mk (ops : TorchOps) (config : GPTConfig) (p : GPTParams)
    (hd : config.n_embd % config.n_head = 0) :
    GPT.init ops config p = Except.ok (mkGPT ops config p) := by
  unfold GPT.init
  rw [initBlocks_ok ops config p.blocks hd]
  rfl

/-- A transformer block preserves all three dimensions. -/
theorem Block.fwd_dims (ops : TorchOps) (blk : Block) (x : Tensor3) :
    (Block.fwd ops blk x).d0 = x.d0 ∧ (Block.fwd ops blk x).d1 = x.d1 ∧
      (Block.fwd ops blk x).d2 = x.d2 :=
  ⟨rfl, rfl, rfl⟩

/-- Folding the block stack preserves all three dimensions. -/
theorem foldl_fwd_dims (ops : TorchOps) (l : List Block) (x : Tensor3) :
    (l.foldl (fun acc blk => Block.fwd ops blk acc) x).d0 = x.d0 ∧
      (l.foldl (fun acc blk => Block.fwd ops blk acc) x).d1 = x.d1 ∧
      (l.foldl (fun acc blk => Block.fwd ops blk acc) x).d2 = x.d2 := by
  induction l generalizing x with
  | nil => exact ⟨rfl, rfl, rfl⟩
  | cons blk rest ih => exact ih (Block.fwd ops blk x)

/-- C2: as literally written, the attention forward binds the third split
to the name c and then reads the never-bound name v, so for every input
it fails with the unbound-name error before producing any output. -/
theorem attn_forward_literal_always_fails (ops : TorchOps)
    (m : CausalSelfAttention) (x : Tensor3) :
    attnForwardLiteral ops m x = Except.error Err.nameError := rfl

/-- C1: evaluating the literal attention forward at a well-shaped concrete
input (module from cfgW, input of shape (1, 2, 2)): instead of the
(B, T, C) attended tensor the claim describes, the evaluation stops with
the unbound-name error, because the third split is bound to c and the
value tensor v is never bound. -/
theorem attn_forward_literal_at_input :
    attnForwardLiteral opsW mW xW = Except.error Err.nameError := rfl

/-- C5: attention construction succeeds exactly when the embedding width
is divisible by the head count, and the only failure it can produce is
the InvalidConfiguration condition. -/
theorem attn_init_divisibility (config : GPTConfig) (p : AttnParams) :
    ((∃ m, CausalSelfAttention.init config p = Except.ok m) ↔
        config.n_embd % config.n_head = 0) ∧
      (CausalSelfAttention.init config p =
          Except.ok (mkCausalSelfAttention config p) ∨
        CausalSelfAttention.init config p =
          Except.error Err.invalidConfiguration) := by
  unfold CausalSelfAttention.init
  by_cases hd : config.n_embd % config.n_head = 0
  · rw [if_pos hd]
    exact ⟨⟨fun _ => hd, fun _ => ⟨mkCausalSelfAttention config p, rfl⟩⟩,
      Or.inl rfl⟩
  · rw [if_neg hd]
    refine ⟨⟨fun hex => ?_, fun hdd => absurd hdd hd⟩, Or.inr rfl⟩
    obtain ⟨m, hmm⟩ := hex
    exact Except.noConfusion hmm

/-- C6: in the attention forward, the raw score at (i, j) is the
query-key dot product scaled by one over the square root of the head
size; masked_fill sets exactly the pairs with j > i to negative infinity;
after softmax along the key axis every query row sums to 1, and every
position beyond the causal horizon receives exactly zero probability
mass. -/
theorem attn_scores_mask_softmax (ops : TorchOps) (config : GPTConfig)
    (p : AttnParams) (m : CausalSelfAttention) (x : Tensor3) (b hh i : ℕ)
    (hm : CausalSelfAttention.init config p = Except.ok m)
    (hexp : ∀ s, 0 < ops.exp s) (hT : x.d1 ≤ config.block_size)
    (hi : i < x.d1) :
    (∀ j, attOf ops m x b hh i j =
        (∑ s ∈ Finset.range (x.d2 / m.n_head),
            qOf m x b i (hh * (x.d2 / m.n_head) + s) *
              kOf m x b j (hh * (x.d2 / m.n_head) + s)) *
          (1 / ops.sqrt ((x.d2 / m.n_head : ℕ) : ℚ))) ∧
      (∀ j, j < x.d1 →
        (maskedOf ops m x b hh i j = MScore.negInf ↔ i < j)) ∧
      (∑ j ∈ Finset.range x.d1, wOf ops m x b hh i j) = 1 ∧
      (∀ j, i < j → wOf ops m x b hh i j = 0) := by
  obtain ⟨hmk, hd⟩ := attn_init_ok config p m hm
  have hbias : ∀ a e, m.bias a e = if e ≤ a then (1 : ℚ) else 0 := by
    intro a e
    rw [hmk]
    rfl
  refine ⟨fun j => rfl, ?_, ?_, ?_⟩
  · intro j hj
    unfold maskedOf
    rw [hbias i j]
    by_cases hij : j ≤ i
    · rw [if_pos hij, if_neg one_ne_zero]
      constructor
      · intro hcon
        exact MScore.noConfusion hcon
      · intro hlt
        exact absurd hlt (Nat.not_lt.mpr hij)
    · rw [if_neg hij, if_pos rfl]
      constructor
      · intro _
        exact Nat.not_le.mp hij
      · intro _
        rfl
  · have hterm : ∀ j' ∈ Finset.range x.d1,
        0 ≤ mexp ops (maskedOf ops m x b hh i j') := by
      intro j' _
      cases hms : maskedOf ops m x b hh i j' with
      | val s =>
        show 0 ≤ ops.exp s
        exact (hexp s).le
      | negInf =>
        exact le_refl 0
    have hdiag : maskedOf ops m x b hh i i =
        MScore.val (attOf ops m x b hh i i) := by
      unfold maskedOf
      rw [hbias i i, if_pos (le_refl i), if_neg one_ne_zero]
    have hDpos : 0 < ∑ j' ∈ Finset.range x.d1,
        mexp ops (maskedOf ops m x b hh i j') := by
      refine Finset.sum_pos' hterm ⟨i, Finset.mem_range.mpr hi, ?_⟩
      rw [hdiag]
      exact hexp _
    unfold wOf
    rw [← Finset.sum_div]
    exact div_self (ne_of_gt hDpos)
  · intro j hij
    have hmneg : maskedOf ops m x b hh i j = MScore.negInf := by
      unfold maskedOf
      rw [hbias i j, if_neg (Nat.not_le.mpr hij), if_pos rfl]
    unfold wOf
    rw [hmneg]
    exact zero_div _

/-- C4: strict causality of the attention forward (with the naming slip
repaired, since the literal forward produces no output at all): two
inputs of the same shape that agree at every position up to i produce
identical attention outputs at position i, however they differ at later
positions. -/
theorem attn_forward_causality (ops : TorchOps) (config : GPTConfig)
    (p : AttnParams) (m : CausalSelfAttention) (x x' : Tensor3) (i : ℕ)
    (hm : CausalSelfAttention.init config p = Except.ok m)
    (h0 : x'.d0 = x.d0) (h1 : x'.d1 = x.d1) (h2 : x'.d2 = x.d2)
    (hagree : ∀ b t c, t ≤ i → x'.data b t c = x.data b t c) (b c : ℕ) :
    (attnForward ops m x').data b i c = (attnForward ops m x).data b i c := by
  obtain ⟨hmk, hd⟩ := attn_init_ok config p m hm
  have hbias : ∀ a e, m.bias a e = if e ≤ a then (1 : ℚ) else 0 := by
    intro a e
    rw [hmk]
    rfl
  have hhs : x'.d2 / m.n_head = x.d2 / m.n_head := by rw [h2]
  have hqkv : ∀ t, t ≤ i → ∀ j, (qkvOf m x').data b t j =
      (qkvOf m x).data b t j := by
    intro t ht j
    show m.c_attn.app1 (x'.data b t) j = m.c_attn.app1 (x.data b t) j
    rw [Linear.app1_congr m.c_attn (x'.data b t) (x.data b t)
      (fun cc => hagree b t cc ht)]
  have hatt : ∀ h' j, j ≤ i →
      attOf ops m x' b h' i j = attOf ops m x b h' i j := by
    intro h' j hj
    unfold attOf
    rw [hhs]
    congr 1
    apply Finset.sum_congr rfl
    intro s _
    unfold headView qOf kOf
    simp only [hqkv i (le_refl i), hqkv j hj]
  have hmasked : ∀ h' j, maskedOf ops m x' b h' i j =
      maskedOf ops m x b h' i j := by
    intro h' j
    unfold maskedOf
    rw [hbias i j]
    by_cases hij : j ≤ i
    · rw [if_pos hij, if_neg one_ne_zero, if_neg one_ne_zero, hatt h' j hij]
    · rw [if_neg hij, if_pos rfl, if_pos rfl]
  have hw : ∀ h' j, wOf ops m x' b h' i j = wOf ops m x b h' i j := by
    intro h' j
    unfold wOf
    rw [h1, hmasked h' j]
    congr 1
    apply Finset.sum_congr rfl
    intro j' _
    rw [hmasked h' j']
  have hw0 : ∀ h' j, i < j → wOf ops m x b h' i j = 0 := by
    intro h' j hij
    have hmneg : maskedOf ops m x b h' i j = MScore.negInf := by
      unfold maskedOf
      rw [hbias i j, if_neg (Nat.not_le.mpr hij), if_pos rfl]
    unfold wOf
    rw [hmneg]
    exact zero_div _
  have hy : ∀ cc, (yOf ops m x' (cOf m x')).data b i cc =
      (yOf ops m x (cOf m x)).data b i cc := by
    intro cc
    simp only [yOf]
    rw [h1, hhs]
    apply Finset.sum_congr rfl
    intro j hjr
    by_cases hij : j ≤ i
    · rw [hw (cc / (x.d2 / m.n_head)) j]
      congr 1
      unfold headView cOf
      exact hqkv j hij _
    · have hij' : i < j := Nat.not_le.mp hij
      rw [hw (cc / (x.d2 / m.n_head)) j, hw0 (cc / (x.d2 / m.n_head)) j hij',
        zero_mul, zero_mul]
  show m.c_proj.app1 ((yOf ops m x' (cOf m x')).data b i) c =
    m.c_proj.app1 ((yOf ops m x (cOf m x)).data b i) c
  rw [Linear.app1_congr m.c_proj _ _ hy]

/-- Witness for C4 at a concrete input: mW is the module CausalSelfAttention.init
builds from cfgW and apW, and xW' agrees with xW at every position up to 0
while differing at position 1; the attention outputs at position 0 agree. -/
theorem attn_forward_causality_witness :
    (∀ b t c, t ≤ 0 → xW'.data b t c = xW.data b t c) ∧
      (attnForward opsW mW xW').data 0 0 0 =
        (attnForward opsW mW xW).data 0 0 0 := by
  have hag : ∀ b t c, t ≤ 0 → xW'.data b t c = xW.data b t c := by
    intro b t c ht
    have ht0 : t = 0 := Nat.le_zero.mp ht
    rw [ht0]
    rfl
  exact ⟨hag,
    attn_forward_causality opsW cfgW apW mW xW xW' 0 rfl rfl rfl rfl hag 0 0⟩

/-- Witness for C6 at a concrete input: the hypotheses hold for opsW,
cfgW, apW, mW and xW, and the attention row at query position 0 sums
to 1. -/
theorem attn_scores_mask_softmax_witness :
    (∀ s, 0 < opsW.exp s) ∧ xW.d1 ≤ cfgW.block_size ∧ 0 < xW.d1 ∧
      (∑ j ∈ Finset.range xW.d1, wOf opsW mW xW 0 0 0 j) = 1 :=
  ⟨fun _ => one_pos, by decide, by decide,
    (attn_scores_mask_softmax opsW cfgW apW mW xW 0 0 0 rfl
      (fun _ => one_pos) (by decide) (by decide)).2.2.1⟩

/-- C7: when block construction succeeds, the two normalization layers
carry their own independent parameters, and the forward computes exactly
the two residual updates x + attn(ln_1(x)) and then + mlp(ln_2(...)),
preserving the input shape. -/
theorem block_forward_residual (ops : TorchOps) (config : GPTConfig)
    (p : BlockParams) (hd : config.n_embd % config.n_head = 0) :
    ∃ blk, Block.init ops config p = Except.ok blk ∧
      blk.ln_1 = ⟨config.n_embd, p.ln_1_w, p.ln_1_b⟩ ∧
      blk.ln_2 = ⟨config.n_embd, p.ln_2_w, p.ln_2_b⟩ ∧
      ∀ x : Tensor3,
        (Block.fwd ops blk x).d0 = x.d0 ∧
        (Block.fwd ops blk x).d1 = x.d1 ∧
        (Block.fwd ops blk x).d2 = x.d2 ∧
        ∀ b t c, (Block.fwd ops blk x).data b t c =
          x.data b t c +
            (attnForward ops blk.attn (ln3 ops blk.ln_1 x)).data b t c +
            (MLP.fwd blk.mlp (ln3 ops blk.ln_2
              (addT3 x (attnForward ops blk.attn
                (ln3 ops blk.ln_1 x))))).data b t c := by
  refine ⟨mkBlock ops config p, block_init_mk ops config p hd, rfl, rfl, ?_⟩
  intro x
  exact ⟨rfl, rfl, rfl, fun b t c => rfl⟩

/-- Witness for C7 at the concrete configuration cfgW. -/
theorem block_forward_residual_witness :
    cfgW.n_embd % cfgW.n_head = 0 ∧
      ∃ blk, Block.init opsW cfgW bpW = Except.ok blk :=
  ⟨by decide, (block_forward_residual opsW cfgW bpW (by decide)).elim
    (fun blk hb => ⟨blk, hb.1⟩)⟩

/-- C8: the feed-forward module expands the width by a factor of 4,
applies the construction-selected exact GELU, contracts back to the
original width, preserves the input shape (when the input width matches
the configured width), and mixes nothing across positions: inputs that
agree at a position produce identical outputs at that position. -/
theorem mlp_forward_shape_local (ops : TorchOps) (config : GPTConfig)
    (pm : MLPParams) (x x' : Tensor3) (b t : ℕ)
    (hx2 : x.d2 = config.n_embd)
    (hagree : ∀ i2, x.data b t i2 = x'.data b t i2) :
    (MLP.init ops config pm).c_fc.in_features = config.n_embd ∧
      (MLP.init ops config pm).c_fc.out_features = 4 * config.n_embd ∧
      (MLP.init ops config pm).geluF = ops.gelu ∧
      (MLP.init ops config pm).c_proj.in_features = 4 * config.n_embd ∧
      (MLP.init ops config pm).c_proj.out_features = config.n_embd ∧
      (MLP.fwd (MLP.init ops config pm) x).d0 = x.d0 ∧
      (MLP.fwd (MLP.init ops config pm) x).d1 = x.d1 ∧
      (MLP.fwd (MLP.init ops config pm) x).d2 = x.d2 ∧
      ∀ o, (MLP.fwd (MLP.init ops config pm) x).data b t o =
        (MLP.fwd (MLP.init ops config pm) x').data b t o := by
  refine ⟨rfl, rfl, rfl, rfl, rfl, rfl, rfl, ?_, ?_⟩
  · show (MLP.init ops config pm).c_proj.out_features = x.d2
    rw [hx2]
    rfl
  · have hfc : (MLP.init ops config pm).c_fc.app1 (x.data b t) =
        (MLP.init ops config pm).c_fc.app1 (x'.data b t) :=
      Linear.app1_congr _ _ _ hagree
    intro o
    show (MLP.init ops config pm).c_proj.app1
        (fun i2 => (MLP.init ops config pm).geluF
          ((MLP.init ops config pm).c_fc.app1 (x.data b t) i2)) o =
      (MLP.fwd (MLP.init ops config pm) x').data b t o
    rw [hfc]
    rfl

/-- Witness for C8 at concrete inputs xW and xW', which agree at position
(0, 0) but differ at position (0, 1). -/
theorem mlp_forward_shape_local_witness :
    xW.d2 = cfgW.n_embd ∧
      (MLP.fwd (MLP.init opsW cfgW mpW) xW).data 0 0 0 =
        (MLP.fwd (MLP.init opsW cfgW mpW) xW').data 0 0 0 :=
  ⟨rfl, (mlp_forward_shape_local opsW cfgW mpW xW xW' 0 0 rfl
    (fun _ => rfl)).2.2.2.2.2.2.2.2 0⟩

/-- C9: top-level construction allocates exactly a (vocab_size, n_embd)
token table, a (block_size, n_embd) position table, n_layer blocks built
in order from each layer's own parameters, one final normalization of
width n_embd, and a bias-free output projection from n_embd to
vocab_size. -/
theorem gpt_init_allocates (ops : TorchOps) (config : GPTConfig)
    (p : GPTParams) (hd : config.n_embd % config.n_head = 0) :
    ∃ g, GPT.init ops config p = Except.ok g ∧
      g.wte.num = config.vocab_size ∧ g.wte.dim = config.n_embd ∧
      g.wpe.num = config.block_size ∧ g.wpe.dim = config.n_embd ∧
      g.h.length = config.n_layer ∧
      (∀ i (hi : i < g.h.length),
        Block.init ops config (p.blocks i) = Except.ok (g.h.get ⟨i, hi⟩)) ∧
      g.ln_f.dim = config.n_embd ∧
      g.lm_head.in_features = config.n_embd ∧
      g.lm_head.out_features = config.vocab_size ∧
      g.lm_head.hasBias = false := by
  refine ⟨mkGPT ops config p, gpt_init_mk ops config p hd, rfl, rfl, rfl, rfl,
    ?_, ?_, rfl, rfl, rfl, rfl⟩
  · show ((List.range config.n_layer).map fun i =>
      mkBlock ops config (p.blocks i)).length = config.n_layer
    rw [List.length_map, List.length_range]
  · intro i hi
    rw [block_init_mk ops config (p.blocks i) hd]
    congr 1
    show mkBlock ops config (p.blocks i) =
      (((List.range config.n_layer).map fun k =>
        mkBlock ops config (p.blocks k)).get ⟨i, hi⟩)
    rw [List.get_eq_getElem, List.getElem_map, List.getElem_range]

/-- Witness for C9 at the concrete configuration cfgW. -/
theorem gpt_init_allocates_witness :
    cfgW.n_embd % cfgW.n_head = 0 ∧
      ∃ g, GPT.init opsW cfgW gpW = Except.ok g :=
  ⟨by decide, (gpt_init_allocates opsW cfgW gpW (by decide)).elim
    (fun g hg => ⟨g, hg.1⟩)⟩

/-- C3: for an in-range index batch (T within the maximum sequence
length, all indices inside the vocabulary), the top-level forward
succeeds and produces exactly the final projection of the final
normalization of the block stack applied in order to the sum of token and
position embeddings, with logits of shape (B, T, vocab_size). -/
theorem gpt_forward_spec (ops : TorchOps) (config : GPTConfig)
    (p : GPTParams) (B T : ℕ) (idx : ℕ → ℕ → ℕ)
    (hd : config.n_embd % config.n_head = 0)
    (hT : T ≤ config.block_size)
    (hidx : ∀ b < B, ∀ t < T, idx b t < config.vocab_size) :
    ∃ g L, GPT.init ops config p = Except.ok g ∧
      GPT.fwd ops g B T idx = Except.ok L ∧
      L = g.lm_head.app3 (ln3 ops g.ln_f
        (g.h.foldl (fun acc blk => Block.fwd ops blk acc)
          (embedSum g B T idx))) ∧
      (∀ b t c, (embedSum g B T idx).data b t c =
        g.wte.weight (idx b t) c + g.wpe.weight t c) ∧
      L.d0 = B ∧ L.d1 = T ∧ L.d2 = config.vocab_size := by
  refine ⟨mkGPT ops config p,
    (mkGPT ops config p).lm_head.app3 (ln3 ops (mkGPT ops config p).ln_f
      (((mkGPT ops config p).h).foldl (fun acc blk => Block.fwd ops blk acc)
        (embedSum (mkGPT ops config p) B T idx))),
    gpt_init_mk ops config p hd, ?_, rfl, fun b t c => rfl, ?_, ?_, rfl⟩
  · unfold GPT.fwd
    rw [if_pos, if_pos]
    · intro t ht
      exact lt_of_lt_of_le ht hT
    · intro b hb t ht
      exact hidx b hb t ht
  · exact (foldl_fwd_dims ops (mkGPT ops config p).h
      (embedSum (mkGPT ops config p) B T idx)).1
  · exact (foldl_fwd_dims ops (mkGPT ops config p).h
      (embedSum (mkGPT ops config p) B T idx)).2.1

/-- Witness for C3 at the spec's end-to-end configuration cfg5 with a
(1, 4) all-zero index batch. -/
theorem gpt_forward_spec_witness :
    cfg5.n_embd % cfg5.n_head = 0 ∧ 4 ≤ cfg5.block_size ∧
      (∀ b < 1, ∀ t < 4, (fun _ _ => 0 : ℕ → ℕ → ℕ) b t < cfg5.vocab_size) ∧
      ∃ g L, GPT.init opsW cfg5 gpW = Except.ok g ∧
        GPT.fwd opsW g 1 4 (fun _ _ => 0) = Except.ok L :=
  ⟨by decide, by decide, by decide,
    (gpt_forward_spec opsW cfg5 gpW 1 4 (fun _ _ => 0) (by decide) (by decide)
      (by decide)).elim fun g hg => hg.elim fun L hL =>
        ⟨g, L, hL.1, hL.2.1⟩⟩

/-- C10 counterexample: at the spec's concrete configuration (maximum
sequence length 8) and an input batch of sequence length 9, the top-level
forward does not fail with the SequenceTooLong condition (it fails with
the out-of-range lookup condition instead). -/
theorem gpt_forward_overlong_cex :
    (GPT.init opsW cfg5 gpW).bind
        (fun g => GPT.fwd opsW g 1 9 (fun _ _ => 0)) ≠
      Except.error Err.sequenceTooLong := by
  have h1 : (GPT.init opsW cfg5 gpW).bind
      (fun g => GPT.fwd opsW g 1 9 (fun _ _ => 0)) =
      Except.error Err.indexOutOfRange := rfl
  rw [h1]
  intro hcontra
  injection hcontra with hv
  exact Err.noConfusion hv

/-- C10 as amended: for every input batch whose sequence length exceeds
the configured maximum, the top-level forward fails with the out-of-range
lookup condition arising from the position-embedding table bounds, not
with a SequenceTooLong condition. -/
theorem gpt_forward_overlong (ops : TorchOps) (config : GPTConfig)
    (p : GPTParams) (B T : ℕ) (idx : ℕ → ℕ → ℕ)
    (hd : config.n_embd % config.n_head = 0)
    (hT : config.block_size < T) :
    ∃ g, GPT.init ops config p = Except.ok g ∧
      GPT.fwd ops g B T idx = Except.error Err.indexOutOfRange := by
  refine ⟨mkGPT ops config p, gpt_init_mk ops config p hd, ?_⟩
  unfold GPT.fwd
  have hpos : ¬ ∀ t < T, t < (mkGPT ops config p).wpe.num := by
    intro hall
    exact absurd (hall config.block_size hT) (lt_irrefl config.block_size)
  by_cases hA : ∀ b < B, ∀ t < T, idx b t < (mkGPT ops config p).wte.num
  · rw [if_pos hA, if_neg hpos]
  · rw [if_neg hA]

/-- Witness for the amended C10 at the concrete configuration cfg5 with
sequence length 9 exceeding the maximum 8. -/
theorem gpt_forward_overlong_witness :
    cfg5.n_embd % cfg5.n_head = 0 ∧ cfg5.block_size < 9 ∧
      ∃ g, GPT.init opsW cfg5 gpW = Except.ok g ∧
        GPT.fwd opsW g 1 9 (fun _ _ => 0) =
          Except.error Err.indexOutOfRange :=
  ⟨by decide, by decide,
    gpt_forward_overlong opsW cfg5 gpW 1 9 (fun _ _ => 0) (by decide)
      (by decide)⟩
